import Mathlib

/-!
Shallow embedding of the peer-to-peer energy-trading protocol core of the
agentic-grid repository, translated from:

  - src/src/shared/models.py           (domain types and pydantic validation)
  - src/src/agents/agent_graph.py      (P2PAgentState, routers, graph nodes)
  - src/src/agents/household/main.py   (INITIAL_PROFILE, on_confirm delivery path)

Modelling conventions:
  - Python floats are modelled as rationals (the constants of the program
    are decimal literals, compared and combined only by +, -, *, <).
  - Randomness (random.random() < 0.3 in formulate_offer_node) is modelled
    by an explicit boolean parameter declineDraw.
  - Fresh uuid strings and datetime.now() are modelled by explicit
    parameters (freshOfferId, now, ...).  Time is a rational number of
    seconds; timedelta(seconds=k) is addition of k.
  - A node returns a partial state update (a dict in Python).  A field that
    the dict does not mention is wrapped as `none` at the outer Option.
    Applying an update to a LangGraph state follows the channel semantics
    declared by P2PAgentState: every field is a last-value channel except
    received_offers, which is declared `Annotated[list, operator.add]` and
    therefore appends the update to the existing list.
  - Python exceptions (KeyError on a missing state key, AttributeError on
    None, ValueError from int(), pydantic ValidationError) are modelled by
    `Except.error`.
  - uuid metadata fields of BecknContext that no claim mentions
    (domain, version, message_id) are omitted; timestamp and ttl are kept.
-/

/-- Rational numbers stand in for Python floats throughout. -/
abbrev Money : Type := ℚ

/-- AgentProfile from src/src/shared/models.py (lines 49-56).  The pydantic
field constraints are modelled separately by validateAgentProfile. -/
structure AgentProfile where
  agent_id : String
  agent_type : String
  current_role : String := ("IDLE")
  current_energy_storage_kwh : ℚ := 0
  max_capacity_kwh : ℚ
  generation_rate_kw : ℚ := 0
  consumption_rate_kw : ℚ := 0
deriving DecidableEq

/-- Pydantic validation of AgentProfile: agent_type is Literal['utility',
'solar'] and current_role is Literal['BAP', 'BPP', 'IDLE'] in the source;
no other field of the model carries a constraint. -/
def validateAgentProfile (p : AgentProfile) : Bool :=
  (p.agent_type == ("utility") || p.agent_type == ("solar")) &&
  (p.current_role == ("BAP") || p.current_role == ("BPP") || p.current_role == ("IDLE"))

/-- Constructing an AgentProfile the way pydantic does: build the record,
then run validation; a constraint violation raises ValidationError. -/
def mkAgentProfile (agent_id agent_type : String) (max_capacity current_energy : ℚ) :
    Except String AgentProfile :=
  let p : AgentProfile :=
    { agent_id := agent_id, agent_type := agent_type, current_role := ("IDLE"),
      current_energy_storage_kwh := current_energy, max_capacity_kwh := max_capacity,
      generation_rate_kw := 0, consumption_rate_kw := 0 }
  if validateAgentProfile p then Except.ok p
  else Except.error ("ValidationError: agent_type is not one of utility, solar")

/-- INITIAL_PROFILE from src/src/agents/household/main.py (lines 25-30):
AGENT_ID defaults to household-agent-01, INITIAL_SOC defaults to 15 percent,
MAX_CAPACITY_KWH = 15.0, so current_energy_storage_kwh = (15/100) * 15. -/
def INITIAL_PROFILE : Except String AgentProfile :=
  mkAgentProfile ("household-agent-01") ("household") 15 ((15 / 100) * 15)

/-- EnergyOffer from src/src/shared/models.py (lines 10-29). -/
structure EnergyOffer where
  offer_id : String
  provider_id : String
  quantity_kwh : ℚ
  price_per_kwh : ℚ
  timestamp : ℚ := 0
  valid_until : ℚ
deriving DecidableEq

/-- EnergyContract from src/src/shared/models.py (lines 38-47). -/
structure EnergyContract where
  contract_id : String
  bap_agent_id : String
  bpp_agent_id : String
  original_offer : EnergyOffer
  agreed_quantity_kwh : ℚ
  agreed_price_per_kwh : ℚ
  contract_confirmation_time : ℚ := 0
  fulfillment_start_time : ℚ
  fulfillment_status : String := ("pending")
deriving DecidableEq

/-- BecknContext from src/src/shared/models.py (lines 60-71); the constant
domain/version and the message_id uuid are omitted (no claim mentions them). -/
structure BecknContext where
  action : String
  bap_id : Option String := none
  bap_uri : Option String := none
  bpp_id : Option String := none
  bpp_uri : Option String := none
  transaction_id : String
  timestamp : ℚ := 0
  ttl : Int := 60
deriving DecidableEq

/-- The message half of an outbound Beckn envelope, by action. -/
inductive BecknMessage where
  | intent : BecknMessage
  | catalog : List EnergyOffer → BecknMessage
  | selectOrder : String → String → BecknMessage
  | initOrder : String → String → BecknMessage
  | onInitQuote : String → BecknMessage
  | emptyOrder : BecknMessage
  | onConfirmContract : EnergyContract → BecknMessage
deriving DecidableEq

/-- The single pending side effect a node may produce:
outgoing_request = {url, payload = {context, message}}. -/
structure OutgoingRequest where
  url : String
  context : BecknContext
  message : BecknMessage
deriving DecidableEq

/-- P2PAgentState from src/src/agents/agent_graph.py (lines 14-22).  An
Optional field that is absent from the store and one that holds None both
behave as an exception when dereferenced, so both are modelled as `none`. -/
structure P2PAgentState where
  trigger : Option String := none
  profile : Option AgentProfile := none
  active_transaction_id : Option String := none
  active_transaction_context : Option BecknContext := none
  received_offers : List EnergyOffer := []
  selected_offer : Option EnergyOffer := none
  final_contract : Option EnergyContract := none
  outgoing_request : Option OutgoingRequest := none
deriving DecidableEq

/-- A partial state update (the dict a graph node returns).  The outer
Option is key presence in the dict; the inner value is what the key maps
to.  received_offers updates carry the list to append. -/
structure StateUpdate where
  trigger : Option (Option String) := none
  profile : Option AgentProfile := none
  active_transaction_id : Option (Option String) := none
  active_transaction_context : Option (Option BecknContext) := none
  received_offers : Option (List EnergyOffer) := none
  selected_offer : Option (Option EnergyOffer) := none
  final_contract : Option (Option EnergyContract) := none
  outgoing_request : Option (Option OutgoingRequest) := none
deriving DecidableEq

/-- The empty update: the node returned an empty dict. -/
def emptyUpdate : StateUpdate := {}

/-- LangGraph channel semantics for P2PAgentState: every channel is
last-value (an update overwrites), except received_offers, which is
declared Annotated[list, operator.add] and therefore concatenates the
update onto the existing list -- also when the update is the empty list. -/
def applyUpdate (s : P2PAgentState) (u : StateUpdate) : P2PAgentState where
  trigger := u.trigger.getD s.trigger
  profile := match u.profile with
    | some p => some p
    | none => s.profile
  active_transaction_id := u.active_transaction_id.getD s.active_transaction_id
  active_transaction_context := u.active_transaction_context.getD s.active_transaction_context
  received_offers := s.received_offers ++ u.received_offers.getD []
  selected_offer := u.selected_offer.getD s.selected_offer
  final_contract := u.final_contract.getD s.final_contract
  outgoing_request := u.outgoing_request.getD s.outgoing_request

/- ## String helpers modelling Python primitives -/

/-- Python str.split on a single separator character, over the character
list; keeps empty segments exactly as str.split('-') does. -/
def splitDashChars : List Char → List (List Char)
  | [] => [[]]
  | c :: cs =>
    let rest := splitDashChars cs
    if c = '-' then [] :: rest
    else
      match rest with
      | [] => [[c]]
      | g :: gs => (c :: g) :: gs

/-- The segment after the last '-' of a string: s.split('-')[-1]. -/
def lastDashSegment (s : String) : String :=
  String.mk ((splitDashChars s.data).getLastD [])

/-- Numeric value of a list of decimal digit characters. -/
def digitsToNat (cs : List Char) : Nat :=
  cs.foldl (fun n c => 10 * n + (c.toNat - 48)) 0

/-- Python int(s), for the strings this program feeds it: succeeds exactly
on non-empty all-digit strings (sign, whitespace and underscore forms never
reach these call sites because the parsed text is a '-'-split segment of an
identifier); a non-digit raises ValueError, modelled as none. -/
def pyIntOfString (s : String) : Option Nat :=
  if s.data ≠ [] ∧ s.data.all (fun c => c.isDigit) then some (digitsToNat s.data)
  else none

/-- Python provider_id.startswith('utility'). -/
def pyStartsWithUtility (s : String) : Bool :=
  (("utility").data).isPrefixOf s.data

/-- Python f-string interpolation of an Optional[str]: None prints as the
text None. -/
def optStr : Option String → String
  | some s => s
  | none => ("None")

/-- The repeated uri-construction snippet: parse the text after the last
'-' of an agent id as an int n and build http://household_agent_n:port with
port = 8001 + (n - 1) * 2.  Raises ValueError when the segment is not a
decimal integer.  Appears in initiate_search_node (lines 91-93),
evaluate_offers_node (lines 119-121) and formulate_offer_node
(lines 195-197). -/
def householdAgentUri (agent_id : String) : Except String String :=
  match pyIntOfString (lastDashSegment agent_id) with
  | none => Except.error ("ValueError: invalid literal for int() with base 10")
  | some n =>
    Except.ok (("http://household_agent_") ++ toString n ++ (":")
      ++ toString (8001 + ((n : Int) - 1) * 2))

/-- The bpp_uri chosen by evaluate_offers_node for the winning offer
(lines 114-121): a fixed utility uri when provider_id starts with utility,
otherwise the household uri parsed from the id. -/
def buildBppUri (provider_id : String) : Except String String :=
  if pyStartsWithUtility provider_id then Except.ok ("http://utility_agent:8002")
  else householdAgentUri provider_id

/- ## Routers (agent_graph.py lines 25-51) -/

/-- route_trigger from agent_graph.py lines 25-37: the flat dispatch table
from trigger to entry node. -/
def route_trigger (s : P2PAgentState) : String :=
  if s.trigger == some ("simulation_cycle") then ("supervisor")
  else if s.trigger == some ("incoming_search") then ("formulate_offer")
  else if s.trigger == some ("incoming_select") then ("process_selection")
  else if s.trigger == some ("incoming_init") then ("process_init")
  else if s.trigger == some ("incoming_confirm") then ("process_confirmation")
  else if s.trigger == some ("incoming_on_search") then ("evaluate_offers")
  else if s.trigger == some ("incoming_on_select") then ("send_init")
  else if s.trigger == some ("incoming_on_init") then ("send_confirm")
  else if s.trigger == some ("incoming_on_confirm") then ("process_bap_completion")
  else ("__end__")

/-- route_from_supervisor from agent_graph.py lines 39-44. -/
def route_from_supervisor (s : P2PAgentState) : String :=
  if s.trigger == some ("start_bap_flow") then ("initiate_search") else ("__end__")

/-- route_after_evaluation from agent_graph.py lines 46-51. -/
def route_after_evaluation (s : P2PAgentState) : String :=
  if s.trigger == some ("selection_made") then ("send_select") else ("__end__")

/- ## Graph nodes -/

/-- supervisor_node from agent_graph.py lines 55-84.  The first line of the
body dereferences state['profile'], so a missing profile is an error.  The
stuck-transaction branch fires whenever an active_transaction_id is present
and the trigger is the plain tick; it consults neither ttl nor timestamp. -/
def supervisor_node (s : P2PAgentState) : Except String StateUpdate :=
  match s.profile with
  | none => Except.error ("KeyError: profile")
  | some profile =>
    if s.active_transaction_id.isSome ∧ s.trigger = some ("simulation_cycle") then
      Except.ok
        { active_transaction_id := some none, active_transaction_context := some none,
          selected_offer := some none, final_contract := some none,
          received_offers := some [], trigger := some (some ("idle")) }
    else if profile.agent_type = ("household")
        ∧ profile.current_energy_storage_kwh < (3 / 10) * profile.max_capacity_kwh then
      if s.active_transaction_id.isSome then Except.ok { trigger := some (some ("idle")) }
      else Except.ok { trigger := some (some ("start_bap_flow")) }
    else if profile.agent_type = ("household")
        ∧ profile.current_energy_storage_kwh > (7 / 10) * profile.max_capacity_kwh then
      Except.ok { trigger := some (some ("idle")) }
    else Except.ok { trigger := some (some ("idle")) }

/-- initiate_search_node from agent_graph.py lines 86-100.  gatewayUrl is
settings.BECKN_GATEWAY_URL; freshTxId is the uuid the BecknContext default
factory draws.  The agent's own callback url is parsed out of its agent_id
before anything else, so an unparsable id raises. -/
def initiate_search_node (gatewayUrl freshTxId : String) (s : P2PAgentState) :
    Except String StateUpdate :=
  match s.profile with
  | none => Except.error ("KeyError: profile")
  | some profile =>
    match householdAgentUri profile.agent_id with
    | Except.error e => Except.error e
    | Except.ok agent_url =>
      let context : BecknContext :=
        { action := ("search"), bap_id := some profile.agent_id, bap_uri := some agent_url,
          transaction_id := freshTxId }
      Except.ok
        { active_transaction_id := some (some freshTxId),
          active_transaction_context := some (some context),
          outgoing_request := some (some
            { url := gatewayUrl ++ ("/search"), context := context,
              message := BecknMessage.intent }) }

/-- First global minimum of a list of offers by price: the Python builtin
min(offers, key=lambda o: o.price_per_kwh) scans left to right and replaces
the current best only on a strictly smaller key. -/
def minByPriceAux (best : EnergyOffer) : List EnergyOffer → EnergyOffer
  | [] => best
  | x :: xs => minByPriceAux (if x.price_per_kwh < best.price_per_kwh then x else best) xs

/-- min over a possibly-empty list; none exactly when the list is empty,
mirroring the `if not offers` guard that precedes the call to min. -/
def minByPrice : List EnergyOffer → Option EnergyOffer
  | [] => none
  | o :: os => some (minByPriceAux o os)

/-- evaluate_offers_node from agent_graph.py lines 102-124.  Checks for a
bound profile first, then for an empty offer list; then takes the cheapest
offer, builds the winning seller's callback uri (which can raise), and
rebinds the seller identity into a copy of the transaction context. -/
def evaluate_offers_node (s : P2PAgentState) : Except String StateUpdate :=
  match s.profile with
  | none => Except.ok { trigger := some (some ("search_failed")) }
  | some _ =>
    match minByPrice s.received_offers with
    | none => Except.ok { trigger := some (some ("search_failed")) }
    | some best =>
      match buildBppUri best.provider_id with
      | Except.error e => Except.error e
      | Except.ok bpp_uri =>
        match s.active_transaction_context with
        | none => Except.error ("KeyError: active_transaction_context")
        | some ctx =>
          let context :=
            { ctx with
              action := ("select")
              bpp_id := some best.provider_id
              bpp_uri := some bpp_uri }
          Except.ok
            { selected_offer := some (some best),
              active_transaction_context := some (some context),
              trigger := some (some ("selection_made")) }

/-- process_bap_completion_node from agent_graph.py lines 144-157: credit
the contract quantity to the profile, then return a dict that sets the four
last-value transaction channels to None and sends [] to the
received_offers append channel. -/
def process_bap_completion_node (s : P2PAgentState) : Except String StateUpdate :=
  match s.final_contract, s.profile with
  | some contract, some profile =>
    Except.ok
      { profile := some
          { profile with current_energy_storage_kwh :=
              profile.current_energy_storage_kwh + contract.agreed_quantity_kwh },
        active_transaction_id := some none,
        active_transaction_context := some none,
        selected_offer := some none,
        final_contract := some none,
        received_offers := some [] }
  | _, _ => Except.error ("KeyError or AttributeError: final_contract or profile")

/-- formulate_offer_node from agent_graph.py lines 178-204.  declineDraw is
the outcome of random.random() < 0.3 (the print in that branch reads
state['profile'], so the profile must be bound even to decline).  A
household seller below 0.6 * capacity declines; otherwise the offer is a
role-dependent constant block: (10.0, 0.15) for a household, (500.0, 0.25)
otherwise, valid for 60 seconds. -/
def formulate_offer_node (declineDraw : Bool) (now : ℚ) (freshOfferId : String)
    (s : P2PAgentState) : Except String StateUpdate :=
  if declineDraw then
    match s.profile with
    | none => Except.error ("KeyError: profile")
    | some _ => Except.ok emptyUpdate
  else
    match s.profile, s.active_transaction_context with
    | some profile, some in_context =>
      if profile.agent_type = ("household")
          ∧ profile.current_energy_storage_kwh < (6 / 10) * profile.max_capacity_kwh then
        Except.ok emptyUpdate
      else
        let qp : ℚ × ℚ :=
          if profile.agent_type = ("household") then (10, 15 / 100) else (500, 25 / 100)
        match (if profile.agent_type = ("household") then householdAgentUri profile.agent_id
               else Except.ok ("http://utility_agent:8002")) with
        | Except.error e => Except.error e
        | Except.ok bpp_uri =>
          let offer : EnergyOffer :=
            { offer_id := freshOfferId, provider_id := profile.agent_id,
              quantity_kwh := qp.1, price_per_kwh := qp.2,
              timestamp := now, valid_until := now + 60 }
          let context :=
            { in_context with
              action := ("on_search")
              bpp_id := some profile.agent_id
              bpp_uri := some bpp_uri }
          Except.ok
            { outgoing_request := some (some
                { url := optStr in_context.bap_uri ++ ("/on_search"), context := context,
                  message := BecknMessage.catalog [offer] }) }
    | _, _ => Except.error ("KeyError: profile or active_transaction_context")

/-- process_confirmation_node from agent_graph.py lines 212-229: build the
final contract from role-dependent constants -- (10.0, 0.15) for a
household, (10.0, 0.25) otherwise -- debit the quantity from the profile,
clear the four last-value transaction channels (received_offers is not
touched here) and emit on_confirm carrying the contract.  The pydantic
EnergyContract model requires bap_agent_id to be a str, so a context whose
bap_id is None raises ValidationError. -/
def process_confirmation_node (now : ℚ) (freshOfferId freshContractId : String)
    (s : P2PAgentState) : Except String StateUpdate :=
  match s.active_transaction_context, s.profile with
  | some context, some profile =>
    let qp : ℚ × ℚ :=
      if profile.agent_type = ("household") then (10, 15 / 100) else (10, 25 / 100)
    let offer_stub : EnergyOffer :=
      { offer_id := freshOfferId, provider_id := profile.agent_id,
        quantity_kwh := qp.1, price_per_kwh := qp.2,
        timestamp := now, valid_until := now + 10 }
    match context.bap_id with
    | none => Except.error ("ValidationError: bap_agent_id none is not an allowed value")
    | some bap_id =>
      let contract : EnergyContract :=
        { contract_id := freshContractId, bap_agent_id := bap_id,
          bpp_agent_id := profile.agent_id, original_offer := offer_stub,
          agreed_quantity_kwh := qp.1, agreed_price_per_kwh := qp.2,
          contract_confirmation_time := now, fulfillment_start_time := now + 5,
          fulfillment_status := ("pending") }
      let profile2 : AgentProfile :=
        { profile with current_energy_storage_kwh :=
            profile.current_energy_storage_kwh - contract.agreed_quantity_kwh }
      Except.ok
        { profile := some profile2,
          outgoing_request := some (some
            { url := optStr context.bap_uri ++ ("/on_confirm"),
              context := { context with action := ("on_confirm") },
              message := BecknMessage.onConfirmContract contract }),
          active_transaction_id := some none,
          active_transaction_context := some none,
          selected_offer := some none,
          final_contract := some none }
  | _, _ => Except.error ("KeyError: active_transaction_context or profile")

/- ## The on_confirm delivery path (household/main.py lines 191-218) -/

/-- Delivery of an on_confirm callback to a buyer, following
handle_beckn_request: the input payload carries the trigger, the contract
parsed afresh from the message body, the profile read from the simulation
thread, and the envelope context; the payload is applied to the
transaction-thread state as a channel update, route_trigger dispatches to
process_bap_completion, and the node's update is applied in turn. -/
def deliver_on_confirm (simProfile : AgentProfile) (ctx : BecknContext)
    (contract : EnergyContract) (txState : P2PAgentState) : Except String P2PAgentState :=
  let input : StateUpdate :=
    { trigger := some (some ("incoming_on_confirm")),
      final_contract := some (some contract),
      profile := some simProfile,
      active_transaction_context := some (some ctx) }
  let s := applyUpdate txState input
  if route_trigger s == ("process_bap_completion") then
    (process_bap_completion_node s).map (fun u => applyUpdate s u)
  else Except.ok s

/- ## Observers used to state concrete evaluations -/

/-- The profile energy carried by a node result, when one is present. -/
def profileEnergyAfter (r : Except String StateUpdate) : Option ℚ :=
  match r with
  | Except.ok u => u.profile.map (fun p => p.current_energy_storage_kwh)
  | Except.error _ => none

/-- The outbound request carried by a node result, when one is present. -/
def requestOf (r : Except String StateUpdate) : Option OutgoingRequest :=
  match r with
  | Except.ok u => u.outgoing_request.getD none
  | Except.error _ => none

/-- Whether a node invocation raised. -/
def isErr (r : Except String StateUpdate) : Bool :=
  match r with
  | Except.ok _ => false
  | Except.error _ => true

/-- The profile energy of a delivered state. -/
def stateEnergyAfter (r : Except String P2PAgentState) : Option ℚ :=
  match r with
  | Except.ok s => s.profile.map (fun p => p.current_energy_storage_kwh)
  | Except.error _ => none

/-- Whether constructing a pydantic model raised. -/
def profileErr (r : Except String AgentProfile) : Bool :=
  match r with
  | Except.ok _ => false
  | Except.error _ => true

/- ## Derived predicates and shared updates -/

/-- The totality precondition that the uri construction inside
evaluate_offers_node places on a winning offer's provider_id: the utility
prefix, or a trailing '-'-segment that parses as a decimal integer. -/
def providerWellFormed (id : String) : Bool :=
  pyStartsWithUtility id || (pyIntOfString (lastDashSegment id)).isSome

/-- The update returned by both search_failed branches of
evaluate_offers_node. -/
def searchFailedUpdate : StateUpdate := { trigger := some (some ("search_failed")) }

/- ## Concrete inputs used by witnesses and counterexamples -/

/-- A transaction context as delivered with an inbound request: buyer
identity bound, seller side still open. -/
def hholdCtx : BecknContext :=
  { action := ("confirm"), bap_id := some ("household-agent-01"),
    bap_uri := some ("http://household_agent_1:8001"), transaction_id := ("tx-001") }

/-- A household seller holding 9.5 of 15 kWh: above the 0.6-capacity
surplus threshold (9.0), yet below the fixed 10.0 kWh block it sells. -/
def sellerProfile95 : AgentProfile :=
  { agent_id := ("household-agent-02"), agent_type := ("household"),
    current_energy_storage_kwh := 19 / 2, max_capacity_kwh := 15 }

/-- The seller state when the incoming search arrives. -/
def sellerSearchState : P2PAgentState :=
  { trigger := some ("incoming_search"), profile := some sellerProfile95,
    active_transaction_context := some hholdCtx }

/-- The same seller when the buyer's confirm arrives. -/
def sellerConfirmState : P2PAgentState :=
  { trigger := some ("incoming_confirm"), profile := some sellerProfile95,
    active_transaction_context := some hholdCtx }

/-- A buyer household at 1.0 of 15 kWh. -/
def buyerProfile : AgentProfile :=
  { agent_id := ("household-agent-01"), agent_type := ("household"),
    current_energy_storage_kwh := 1, max_capacity_kwh := 15 }

/-- An offer accumulated on the buyer's transaction thread. -/
def offerA : EnergyOffer :=
  { offer_id := ("offer-a"), provider_id := ("household-agent-03"),
    quantity_kwh := 10, price_per_kwh := 15 / 100, valid_until := 60 }

/-- The finalized contract carried by the on_confirm callback. -/
def contract10 : EnergyContract :=
  { contract_id := ("contract-1"), bap_agent_id := ("household-agent-01"),
    bpp_agent_id := ("household-agent-03"), original_offer := offerA,
    agreed_quantity_kwh := 10, agreed_price_per_kwh := 15 / 100,
    fulfillment_start_time := 5 }

/-- A buyer transaction-thread state at the moment the on_confirm callback
has been applied: one accumulated offer, an active transaction, contract
present. -/
def c2State : P2PAgentState :=
  { trigger := some ("incoming_on_confirm"), profile := some buyerProfile,
    active_transaction_id := some ("tx-001"), active_transaction_context := some hholdCtx,
    received_offers := [offerA], selected_offer := some offerA,
    final_contract := some contract10 }

/-- The received_offers list after process_bap_completion runs on c2State. -/
def c2AfterOffers : List EnergyOffer :=
  match process_bap_completion_node c2State with
  | Except.ok u => (applyUpdate c2State u).received_offers
  | Except.error _ => []

/-- A simulation-thread state on a plain tick with a stuck transaction and
a leftover accumulated offer. -/
def c8State : P2PAgentState :=
  { trigger := some ("simulation_cycle"), profile := some buyerProfile,
    active_transaction_id := some ("tx-001"), active_transaction_context := some hholdCtx,
    received_offers := [offerA], selected_offer := some offerA }

/-- The received_offers list after the supervisor clears c8State. -/
def c8AfterOffers : List EnergyOffer :=
  match supervisor_node c8State with
  | Except.ok u => (applyUpdate c8State u).received_offers
  | Except.error _ => []

/-- A buyer invocation of evaluate_offers with no offers received. -/
def c6State : P2PAgentState :=
  { trigger := some ("incoming_on_search"), profile := some buyerProfile,
    active_transaction_context := some hholdCtx }

/-- A low-surplus household seller receiving a search. -/
def c7State : P2PAgentState :=
  { trigger := some ("incoming_search"), profile := some buyerProfile,
    active_transaction_context := some hholdCtx }

/-- A fresh (never written) transaction-thread state. -/
def c4TxStart : P2PAgentState := {}

/-- First delivery of the on_confirm payload to the buyer. -/
def c4First : Except String P2PAgentState :=
  deliver_on_confirm buyerProfile hholdCtx contract10 c4TxStart

/-- Second delivery of the same on_confirm payload: the simulation profile
is the one merged back after the first delivery, the transaction-thread
state is the cleared one. -/
def c4Second : Except String P2PAgentState :=
  Except.bind c4First (fun s1 =>
    match s1.profile with
    | some p1 => deliver_on_confirm p1 hholdCtx contract10 s1
    | none => Except.error ("unreachable: no profile after first delivery"))

/-- Offers at prices 0.20 / 0.15 / 0.25 for the tie-free selection check. -/
def c3Offer1 : EnergyOffer :=
  { offer_id := ("offer-1"), provider_id := ("household-agent-03"),
    quantity_kwh := 10, price_per_kwh := 20 / 100, valid_until := 60 }

/-- The cheapest of the three offers. -/
def c3Offer2 : EnergyOffer :=
  { offer_id := ("offer-2"), provider_id := ("household-agent-04"),
    quantity_kwh := 10, price_per_kwh := 15 / 100, valid_until := 60 }

/-- The most expensive of the three offers. -/
def c3Offer3 : EnergyOffer :=
  { offer_id := ("offer-3"), provider_id := ("utility_agent"),
    quantity_kwh := 500, price_per_kwh := 25 / 100, valid_until := 60 }

/-- The buyer state carrying the three offers. -/
def c3State : P2PAgentState :=
  { trigger := some ("incoming_on_search"), profile := some buyerProfile,
    active_transaction_id := some ("tx-001"), active_transaction_context := some hholdCtx,
    received_offers := [c3Offer1, c3Offer2, c3Offer3] }

/-- The utility seller. -/
def utilityProfile : AgentProfile :=
  { agent_id := ("utility-agent-01"), agent_type := ("utility"),
    current_energy_storage_kwh := 1000, max_capacity_kwh := 10000 }

/-- The utility seller receiving a search. -/
def utilitySearchState : P2PAgentState :=
  { trigger := some ("incoming_search"), profile := some utilityProfile,
    active_transaction_context := some hholdCtx }

/-- The utility seller receiving a confirm. -/
def utilityConfirmState : P2PAgentState :=
  { trigger := some ("incoming_confirm"), profile := some utilityProfile,
    active_transaction_context := some hholdCtx }

/-- A seller whose agent_id has a non-numeric trailing segment. -/
def badProfile : AgentProfile :=
  { agent_id := ("household-agent-x"), agent_type := ("household"),
    current_energy_storage_kwh := 12, max_capacity_kwh := 15 }

/-- An offer whose provider_id has a non-numeric trailing segment. -/
def badOffer : EnergyOffer :=
  { offer_id := ("offer-b"), provider_id := ("household-agent-x"),
    quantity_kwh := 10, price_per_kwh := 15 / 100, valid_until := 60 }

/-- The buyer state whose only (hence winning) offer is the ill-formed one. -/
def c10EvalState : P2PAgentState :=
  { trigger := some ("incoming_on_search"), profile := some buyerProfile,
    active_transaction_context := some hholdCtx, received_offers := [badOffer] }

/-- The ill-formed seller receiving a search. -/
def c10SearchState : P2PAgentState :=
  { trigger := some ("incoming_search"), profile := some badProfile,
    active_transaction_context := some hholdCtx }

/- ## Helper lemmas -/

/-- Applying the empty update leaves the state untouched (the append of []
to received_offers is the identity). -/
theorem applyUpdate_emptyUpdate (s : P2PAgentState) : applyUpdate s emptyUpdate = s := by
  cases s
  simp [applyUpdate, emptyUpdate]

/-- minByPrice is none exactly on the empty list. -/
theorem minByPrice_eq_none {l : List EnergyOffer} (h : minByPrice l = none) : l = [] := by
  cases l with
  | nil => rfl
  | cons o os => simp [minByPrice] at h

/- ## Claim theorems -/

/-- Claim C1 (code_bug evidence): a household seller holding 9.5 of 15 kWh
passes the 0.6-capacity surplus check inside formulate_offer_node and
advertises an offer, and the subsequent process_confirmation_node debits
the fixed 10.0 kWh block, leaving current_energy_storage_kwh = -0.5 < 0:
the claimed invariant 0 <= energy <= capacity is violated by a completed
seller flow. -/
theorem C1_seller_completion_drives_energy_negative :
    (requestOf (formulate_offer_node false 0 ("offer-s") sellerSearchState)).isSome = true
    ∧ profileEnergyAfter
        (process_confirmation_node 0 ("offer-t") ("contract-t") sellerConfirmState)
        = some ((19 : ℚ) / 2 - 10)
    ∧ ((19 : ℚ) / 2 - 10) < 0 := by
  have huri : householdAgentUri ("household-agent-02")
      = Except.ok ("http://household_agent_2:8003") := rfl
  refine ⟨?_, ?_, ?_⟩
  · simp only [formulate_offer_node, sellerSearchState, sellerProfile95, hholdCtx, huri,
      requestOf]
    norm_num
  · simp only [process_confirmation_node, sellerConfirmState, sellerProfile95, hholdCtx,
      profileEnergyAfter, optStr]
    norm_num
  · norm_num

/-- Claim C5 (code_bug evidence): pydantic validation of AgentProfile
accepts exactly the agent types utility and solar; the agent type household
-- used by the household agent's own INITIAL_PROFILE -- is rejected, so the
household agent's initial profile fails validation. -/
theorem C5_household_agent_type_rejected :
    profileErr INITIAL_PROFILE = true
    ∧ profileErr (mkAgentProfile ("household-agent-01") ("household") 15 1) = true
    ∧ profileErr (mkAgentProfile ("utility-agent-01") ("utility") 100 1) = false
    ∧ profileErr (mkAgentProfile ("solar-agent-01") ("solar") 100 1) = false := by
  exact ⟨rfl, rfl, rfl, rfl⟩

/-- Claim C2 (amended): for every state with a bound profile and a final
contract, process_bap_completion_node credits exactly agreed_quantity_kwh
and the resulting state has active_transaction_id,
active_transaction_context, selected_offer and final_contract cleared;
received_offers, however, is unchanged, because the [] sent to that channel
is appended under its operator.add reducer rather than overwriting. -/
theorem C2_bap_completion_credits_and_clears (s : P2PAgentState) (p : AgentProfile)
    (c : EnergyContract) (hp : s.profile = some p) (hc : s.final_contract = some c) :
    ∃ u, process_bap_completion_node s = Except.ok u
      ∧ (applyUpdate s u).profile = some
          { p with current_energy_storage_kwh :=
              p.current_energy_storage_kwh + c.agreed_quantity_kwh }
      ∧ (applyUpdate s u).active_transaction_id = none
      ∧ (applyUpdate s u).active_transaction_context = none
      ∧ (applyUpdate s u).selected_offer = none
      ∧ (applyUpdate s u).final_contract = none
      ∧ (applyUpdate s u).received_offers = s.received_offers := by
  have heval : process_bap_completion_node s = Except.ok
      { profile := some
          { p with current_energy_storage_kwh :=
              p.current_energy_storage_kwh + c.agreed_quantity_kwh },
        active_transaction_id := some none,
        active_transaction_context := some none,
        selected_offer := some none,
        final_contract := some none,
        received_offers := some [] } := by
    simp only [process_bap_completion_node, hp, hc]
  refine ⟨_, heval, rfl, rfl, rfl, rfl, rfl, ?_⟩
  exact List.append_nil _

/-- Claim C2 counterexample: on the concrete buyer transaction-thread state
c2State, which has accumulated one offer, the state produced by
process_bap_completion_node still carries that offer in received_offers --
the claim that every transaction-scoped field including received_offers is
empty afterwards is false. -/
theorem C2_received_offers_survive_completion :
    c2AfterOffers = [offerA] ∧ c2AfterOffers ≠ [] := by
  have h : c2AfterOffers = [offerA] := rfl
  exact ⟨h, by rw [h]; exact List.cons_ne_nil _ _⟩

/-- Claim C2 witness: the amended theorem instantiated at c2State. -/
theorem C2_bap_completion_credits_and_clears_witness :
    ∃ u, process_bap_completion_node c2State = Except.ok u
      ∧ (applyUpdate c2State u).profile = some
          { buyerProfile with current_energy_storage_kwh :=
              buyerProfile.current_energy_storage_kwh + contract10.agreed_quantity_kwh }
      ∧ (applyUpdate c2State u).active_transaction_id = none
      ∧ (applyUpdate c2State u).active_transaction_context = none
      ∧ (applyUpdate c2State u).selected_offer = none
      ∧ (applyUpdate c2State u).final_contract = none
      ∧ (applyUpdate c2State u).received_offers = c2State.received_offers :=
  C2_bap_completion_credits_and_clears c2State buyerProfile contract10 rfl rfl

/-- Claim C8 (amended): on every state with an active transaction and the
plain simulation_cycle trigger, supervisor_node unconditionally -- for any
context, so without any comparison of elapsed time against ttl -- clears
active_transaction_id, active_transaction_context, selected_offer and
final_contract, sets trigger idle, and the secondary router terminates
without starting a buying flow; received_offers, however, survives, because
the [] sent to that channel is appended under its operator.add reducer. -/
theorem C8_supervisor_clears_unconditionally (s : P2PAgentState) (p : AgentProfile)
    (tid : String) (hp : s.profile = some p) (hid : s.active_transaction_id = some tid)
    (htr : s.trigger = some ("simulation_cycle")) :
    ∃ u, supervisor_node s = Except.ok u
      ∧ (applyUpdate s u).active_transaction_id = none
      ∧ (applyUpdate s u).active_transaction_context = none
      ∧ (applyUpdate s u).selected_offer = none
      ∧ (applyUpdate s u).final_contract = none
      ∧ (applyUpdate s u).trigger = some ("idle")
      ∧ (applyUpdate s u).received_offers = s.received_offers
      ∧ route_from_supervisor (applyUpdate s u) = ("__end__") := by
  have hcond : s.active_transaction_id.isSome ∧ s.trigger = some ("simulation_cycle") :=
    ⟨by rw [hid]; rfl, htr⟩
  have heval : supervisor_node s = Except.ok
      { active_transaction_id := some none,
        active_transaction_context := some none,
        selected_offer := some none,
        final_contract := some none,
        received_offers := some [],
        trigger := some (some ("idle")) } := by
    simp only [supervisor_node, hp]
    rw [if_pos hcond]
  refine ⟨_, heval, rfl, rfl, rfl, rfl, rfl, ?_, rfl⟩
  exact List.append_nil _

/-- Claim C8 counterexample: on the concrete tick state c8State carrying
one accumulated offer, the supervisor's clearing leaves that offer in
received_offers -- the claim that all transaction-scoped fields including
received_offers are cleared is false. -/
theorem C8_supervisor_leaves_received_offers :
    c8AfterOffers = [offerA] ∧ c8AfterOffers ≠ [] := by
  have h : c8AfterOffers = [offerA] := rfl
  exact ⟨h, by rw [h]; exact List.cons_ne_nil _ _⟩

/-- Claim C8 witness: the amended theorem instantiated at c8State. -/
theorem C8_supervisor_clears_unconditionally_witness :
    ∃ u, supervisor_node c8State = Except.ok u
      ∧ (applyUpdate c8State u).active_transaction_id = none
      ∧ (applyUpdate c8State u).active_transaction_context = none
      ∧ (applyUpdate c8State u).selected_offer = none
      ∧ (applyUpdate c8State u).final_contract = none
      ∧ (applyUpdate c8State u).trigger = some ("idle")
      ∧ (applyUpdate c8State u).received_offers = c8State.received_offers
      ∧ route_from_supervisor (applyUpdate c8State u) = ("__end__") :=
  C8_supervisor_clears_unconditionally c8State buyerProfile ("tx-001") rfl rfl rfl

/-- Claim C6: with a bound profile and an empty received_offers list,
evaluate_offers_node returns exactly the search_failed trigger update;
every other field of the applied state is unchanged, and the secondary
router terminates the invocation instead of sending a select. -/
theorem C6_empty_offers_search_failed (s : P2PAgentState) (p : AgentProfile)
    (hp : s.profile = some p) (hro : s.received_offers = []) :
    evaluate_offers_node s = Except.ok searchFailedUpdate
      ∧ (applyUpdate s searchFailedUpdate).trigger = some ("search_failed")
      ∧ (applyUpdate s searchFailedUpdate).profile = s.profile
      ∧ (applyUpdate s searchFailedUpdate).active_transaction_id = s.active_transaction_id
      ∧ (applyUpdate s searchFailedUpdate).active_transaction_context
          = s.active_transaction_context
      ∧ (applyUpdate s searchFailedUpdate).received_offers = s.received_offers
      ∧ (applyUpdate s searchFailedUpdate).selected_offer = s.selected_offer
      ∧ (applyUpdate s searchFailedUpdate).final_contract = s.final_contract
      ∧ (applyUpdate s searchFailedUpdate).outgoing_request = s.outgoing_request
      ∧ route_after_evaluation (applyUpdate s searchFailedUpdate) = ("__end__") := by
  refine ⟨?_, rfl, rfl, rfl, rfl, List.append_nil _, rfl, rfl, rfl, rfl⟩
  simp only [evaluate_offers_node, hp, hro, minByPrice, searchFailedUpdate]

/-- Claim C6 witness: the theorem instantiated at the concrete empty-offer
state c6State. -/
theorem C6_empty_offers_search_failed_witness :
    evaluate_offers_node c6State = Except.ok searchFailedUpdate
      ∧ (applyUpdate c6State searchFailedUpdate).trigger = some ("search_failed")
      ∧ (applyUpdate c6State searchFailedUpdate).profile = c6State.profile
      ∧ (applyUpdate c6State searchFailedUpdate).active_transaction_id
          = c6State.active_transaction_id
      ∧ (applyUpdate c6State searchFailedUpdate).active_transaction_context
          = c6State.active_transaction_context
      ∧ (applyUpdate c6State searchFailedUpdate).received_offers = c6State.received_offers
      ∧ (applyUpdate c6State searchFailedUpdate).selected_offer = c6State.selected_offer
      ∧ (applyUpdate c6State searchFailedUpdate).final_contract = c6State.final_contract
      ∧ (applyUpdate c6State searchFailedUpdate).outgoing_request = c6State.outgoing_request
      ∧ route_after_evaluation (applyUpdate c6State searchFailedUpdate) = ("__end__") :=
  C6_empty_offers_search_failed c6State buyerProfile rfl rfl

/-- Claim C7: whenever the seller declines -- the availability draw came up
busy, or the agent is a household below 0.6 of capacity -- the node returns
the empty dict: no outgoing_request, and applying the update changes no
state field at all (silence, not an explicit negative offer). -/
theorem C7_decline_is_silent (d : Bool) (now : ℚ) (oid : String) (s : P2PAgentState)
    (p : AgentProfile) (ctx : BecknContext) (hp : s.profile = some p)
    (hctx : s.active_transaction_context = some ctx)
    (hdecl : d = true ∨ (p.agent_type = ("household")
        ∧ p.current_energy_storage_kwh < (6 / 10) * p.max_capacity_kwh)) :
    formulate_offer_node d now oid s = Except.ok emptyUpdate
      ∧ applyUpdate s emptyUpdate = s := by
  refine ⟨?_, applyUpdate_emptyUpdate s⟩
  cases d with
  | true => simp [formulate_offer_node, hp]
  | false =>
    rcases hdecl with h | ⟨h1, h2⟩
    · exact Bool.noConfusion h
    · have hcond : p.agent_type = ("household")
          ∧ p.current_energy_storage_kwh < (6 / 10) * p.max_capacity_kwh := ⟨h1, h2⟩
      simp only [formulate_offer_node, Bool.false_eq_true, if_false, hp, hctx]
      rw [if_pos hcond]

/-- Claim C7 witness: the theorem instantiated with a declined draw set to
false and the low-surplus household c7State, so the threshold branch is the
one exercised. -/
theorem C7_decline_is_silent_witness :
    formulate_offer_node false 0 ("offer-w") c7State = Except.ok emptyUpdate
      ∧ applyUpdate c7State emptyUpdate = c7State :=
  C7_decline_is_silent false 0 ("offer-w") c7State buyerProfile hholdCtx rfl rfl
    (Or.inr ⟨rfl, by norm_num [buyerProfile]⟩)

/-- Claim C4 (code_bug evidence): delivering the same on_confirm payload
twice to the buyer credits the contract quantity twice.  The first delivery
takes the profile from 1.0 to 11.0 kWh; re-delivering the identical payload
to the already-cleared transaction state re-populates final_contract from
the message body and credits again, to 21.0 kWh -- not the unchanged 11.0
the claim requires. -/
theorem C4_redelivered_on_confirm_double_credits :
    stateEnergyAfter c4First = some 11
    ∧ stateEnergyAfter c4Second = some 21
    ∧ ((21 : ℚ) ≠ 11) := by
  have h1 : stateEnergyAfter c4First = some ((1 : ℚ) + 10) := rfl
  have h2 : stateEnergyAfter c4Second = some (((1 : ℚ) + 10) + 10) := rfl
  refine ⟨?_, ?_, by norm_num⟩
  · rw [h1]; norm_num
  · rw [h2]; norm_num

/-- Claim C9: a utility seller advertises a 500.0 kWh block at 0.25 in
formulate_offer_node, but the contract built by process_confirmation_node
for any seller carries agreed_quantity_kwh = 10.0 (at 0.25 for the
utility); process_bap_completion_node credits the buyer exactly the
contract's agreed quantity, so accepting the utility's offer yields 10.0
kWh, not the advertised 500.0.  For household sellers both the advertised
and the contracted quantity are 10.0. -/
theorem C9_utility_offer_contract_quantity_mismatch :
    (∀ (now : ℚ) (oid : String) (s : P2PAgentState) (p : AgentProfile) (ctx : BecknContext),
       s.profile = some p → s.active_transaction_context = some ctx
       → p.agent_type = ("utility")
       → ∃ r o, requestOf (formulate_offer_node false now oid s) = some r
           ∧ r.message = BecknMessage.catalog [o]
           ∧ o.quantity_kwh = 500 ∧ o.price_per_kwh = 25 / 100
           ∧ o.provider_id = p.agent_id)
    ∧ (∀ (now : ℚ) (oid cid : String) (s : P2PAgentState) (p : AgentProfile)
         (ctx : BecknContext) (bid : String),
       s.profile = some p → s.active_transaction_context = some ctx
       → p.agent_type = ("utility") → ctx.bap_id = some bid
       → ∃ r c, requestOf (process_confirmation_node now oid cid s) = some r
           ∧ r.message = BecknMessage.onConfirmContract c
           ∧ c.agreed_quantity_kwh = 10 ∧ c.agreed_price_per_kwh = 25 / 100
           ∧ profileEnergyAfter (process_confirmation_node now oid cid s)
               = some (p.current_energy_storage_kwh - 10))
    ∧ (∀ (now : ℚ) (oid cid : String) (s : P2PAgentState) (p : AgentProfile)
         (ctx : BecknContext) (bid : String),
       s.profile = some p → s.active_transaction_context = some ctx
       → p.agent_type = ("household")
       → ¬ p.current_energy_storage_kwh < (6 / 10) * p.max_capacity_kwh
       → (pyIntOfString (lastDashSegment p.agent_id)).isSome = true
       → ctx.bap_id = some bid
       → (∃ r o, requestOf (formulate_offer_node false now oid s) = some r
           ∧ r.message = BecknMessage.catalog [o]
           ∧ o.quantity_kwh = 10 ∧ o.price_per_kwh = 15 / 100)
         ∧ (∃ r c, requestOf (process_confirmation_node now oid cid s) = some r
           ∧ r.message = BecknMessage.onConfirmContract c
           ∧ c.agreed_quantity_kwh = 10 ∧ c.agreed_price_per_kwh = 15 / 100))
    ∧ (∀ (s : P2PAgentState) (p : AgentProfile) (c : EnergyContract),
       s.profile = some p → s.final_contract = some c
       → profileEnergyAfter (process_bap_completion_node s)
           = some (p.current_energy_storage_kwh + c.agreed_quantity_kwh)) := by
  refine ⟨?_, ?_, ?_, ?_⟩
  · intro now oid s p ctx hp hctx htype
    have hne1 : ¬ p.agent_type = ("household") := by rw [htype]; decide
    have hne : ¬ (p.agent_type = ("household")
        ∧ p.current_energy_storage_kwh < (6 / 10) * p.max_capacity_kwh) :=
      fun hh => hne1 hh.1
    have heval : formulate_offer_node false now oid s = Except.ok
        { outgoing_request := some (some
            { url := optStr ctx.bap_uri ++ ("/on_search"),
              context := { ctx with
                           action := ("on_search")
                           bpp_id := some p.agent_id
                           bpp_uri := some ("http://utility_agent:8002") },
              message := BecknMessage.catalog
                [{ offer_id := oid, provider_id := p.agent_id, quantity_kwh := 500,
                   price_per_kwh := 25 / 100, timestamp := now,
                   valid_until := now + 60 }] }) } := by
      simp only [formulate_offer_node, Bool.false_eq_true, if_false, hp, hctx, if_neg hne,
        if_neg hne1]
    exact ⟨_, _, by rw [heval]; rfl, rfl, rfl, rfl, rfl⟩
  · intro now oid cid s p ctx bid hp hctx htype hbid
    have hne1 : ¬ p.agent_type = ("household") := by rw [htype]; decide
    have heval : process_confirmation_node now oid cid s = Except.ok
        { profile := some
            { p with current_energy_storage_kwh := p.current_energy_storage_kwh - 10 },
          outgoing_request := some (some
            { url := optStr ctx.bap_uri ++ ("/on_confirm"),
              context := { ctx with action := ("on_confirm") },
              message := BecknMessage.onConfirmContract
                { contract_id := cid, bap_agent_id := bid, bpp_agent_id := p.agent_id,
                  original_offer :=
                    { offer_id := oid, provider_id := p.agent_id, quantity_kwh := 10,
                      price_per_kwh := 25 / 100, timestamp := now,
                      valid_until := now + 10 },
                  agreed_quantity_kwh := 10, agreed_price_per_kwh := 25 / 100,
                  contract_confirmation_time := now, fulfillment_start_time := now + 5,
                  fulfillment_status := ("pending") } }),
          active_transaction_id := some none,
          active_transaction_context := some none,
          selected_offer := some none,
          final_contract := some none } := by
      simp only [process_confirmation_node, hp, hctx, if_neg hne1, hbid]
    exact ⟨_, _, by rw [heval]; rfl, rfl, rfl, rfl, by rw [heval]; rfl⟩
  · intro now oid cid s p ctx bid hp hctx htype hsur hparse hbid
    obtain ⟨n, hn⟩ := Option.isSome_iff_exists.mp hparse
    have huri : householdAgentUri p.agent_id = Except.ok
        (("http://household_agent_") ++ toString n ++ (":")
          ++ toString (8001 + ((n : Int) - 1) * 2)) := by
      simp only [householdAgentUri, hn]
    have hne : ¬ (p.agent_type = ("household")
        ∧ p.current_energy_storage_kwh < (6 / 10) * p.max_capacity_kwh) :=
      fun hh => hsur hh.2
    constructor
    · have heval : formulate_offer_node false now oid s = Except.ok
          { outgoing_request := some (some
              { url := optStr ctx.bap_uri ++ ("/on_search"),
                context := { ctx with
                             action := ("on_search")
                             bpp_id := some p.agent_id
                             bpp_uri := some (("http://household_agent_") ++ toString n
                               ++ (":") ++ toString (8001 + ((n : Int) - 1) * 2)) },
                message := BecknMessage.catalog
                  [{ offer_id := oid, provider_id := p.agent_id, quantity_kwh := 10,
                     price_per_kwh := 15 / 100, timestamp := now,
                     valid_until := now + 60 }] }) } := by
        simp only [formulate_offer_node, Bool.false_eq_true, if_false, hp, hctx,
          if_neg hne, if_pos htype, huri]
      exact ⟨_, _, by rw [heval]; rfl, rfl, rfl, rfl⟩
    · have heval : process_confirmation_node now oid cid s = Except.ok
          { profile := some
              { p with current_energy_storage_kwh := p.current_energy_storage_kwh - 10 },
            outgoing_request := some (some
              { url := optStr ctx.bap_uri ++ ("/on_confirm"),
                context := { ctx with action := ("on_confirm") },
                message := BecknMessage.onConfirmContract
                  { contract_id := cid, bap_agent_id := bid, bpp_agent_id := p.agent_id,
                    original_offer :=
                      { offer_id := oid, provider_id := p.agent_id, quantity_kwh := 10,
                        price_per_kwh := 15 / 100, timestamp := now,
                        valid_until := now + 10 },
                    agreed_quantity_kwh := 10, agreed_price_per_kwh := 15 / 100,
                    contract_confirmation_time := now, fulfillment_start_time := now + 5,
                    fulfillment_status := ("pending") } }),
            active_transaction_id := some none,
            active_transaction_context := some none,
            selected_offer := some none,
            final_contract := some none } := by
        simp only [process_confirmation_node, hp, hctx, if_pos htype, hbid]
      exact ⟨_, _, by rw [heval]; rfl, rfl, rfl, rfl⟩
  · intro s p c hp hc
    simp only [process_bap_completion_node, hp, hc, profileEnergyAfter]
    rfl

/-- Claim C9 witness: the theorem instantiated at the concrete utility
seller, the concrete household seller at 9.5 of 15 kWh, and the concrete
buyer completion state. -/
theorem C9_utility_offer_contract_quantity_mismatch_witness :
    (∃ r o, requestOf (formulate_offer_node false 0 ("offer-u") utilitySearchState) = some r
       ∧ r.message = BecknMessage.catalog [o]
       ∧ o.quantity_kwh = 500 ∧ o.price_per_kwh = 25 / 100
       ∧ o.provider_id = utilityProfile.agent_id)
    ∧ (∃ r c, requestOf
          (process_confirmation_node 0 ("offer-v") ("contract-u") utilityConfirmState)
          = some r
       ∧ r.message = BecknMessage.onConfirmContract c
       ∧ c.agreed_quantity_kwh = 10 ∧ c.agreed_price_per_kwh = 25 / 100
       ∧ profileEnergyAfter
           (process_confirmation_node 0 ("offer-v") ("contract-u") utilityConfirmState)
           = some (utilityProfile.current_energy_storage_kwh - 10))
    ∧ ((∃ r o, requestOf (formulate_offer_node false 0 ("offer-h") sellerSearchState) = some r
       ∧ r.message = BecknMessage.catalog [o]
       ∧ o.quantity_kwh = 10 ∧ o.price_per_kwh = 15 / 100)
      ∧ (∃ r c, requestOf
          (process_confirmation_node 0 ("offer-h") ("contract-h") sellerSearchState)
          = some r
       ∧ r.message = BecknMessage.onConfirmContract c
       ∧ c.agreed_quantity_kwh = 10 ∧ c.agreed_price_per_kwh = 15 / 100))
    ∧ profileEnergyAfter (process_bap_completion_node c2State)
        = some (buyerProfile.current_energy_storage_kwh + contract10.agreed_quantity_kwh) :=
  ⟨C9_utility_offer_contract_quantity_mismatch.1 0 ("offer-u") utilitySearchState
     utilityProfile hholdCtx rfl rfl rfl,
   C9_utility_offer_contract_quantity_mismatch.2.1 0 ("offer-v") ("contract-u")
     utilityConfirmState utilityProfile hholdCtx ("household-agent-01") rfl rfl rfl rfl,
   C9_utility_offer_contract_quantity_mismatch.2.2.1 0 ("offer-h") ("contract-h")
     sellerSearchState sellerProfile95 hholdCtx ("household-agent-01") rfl rfl rfl
     (by norm_num [sellerProfile95]) rfl rfl,
   C9_utility_offer_contract_quantity_mismatch.2.2.2 c2State buyerProfile contract10 rfl rfl⟩

/-- Claim C10: the uri construction makes evaluate_offers_node total only
on winning offers whose provider_id starts with utility or whose trailing
'-'-segment parses as a decimal integer -- on any other winner it raises
instead of emitting selection_made; initiate_search_node always requires
the agent's own agent_id to parse, and formulate_offer_node requires it on
the household offering path. -/
theorem C10_provider_id_parse_precondition :
    (∀ (s : P2PAgentState) (p : AgentProfile) (w : EnergyOffer),
       s.profile = some p → minByPrice s.received_offers = some w
       → pyStartsWithUtility w.provider_id = false
       → pyIntOfString (lastDashSegment w.provider_id) = none
       → isErr (evaluate_offers_node s) = true)
    ∧ (∀ (gw tx : String) (s : P2PAgentState) (p : AgentProfile),
       s.profile = some p
       → pyIntOfString (lastDashSegment p.agent_id) = none
       → isErr (initiate_search_node gw tx s) = true)
    ∧ (∀ (now : ℚ) (oid : String) (s : P2PAgentState) (p : AgentProfile)
         (ctx : BecknContext),
       s.profile = some p → s.active_transaction_context = some ctx
       → p.agent_type = ("household")
       → ¬ p.current_energy_storage_kwh < (6 / 10) * p.max_capacity_kwh
       → pyIntOfString (lastDashSegment p.agent_id) = none
       → isErr (formulate_offer_node false now oid s) = true) := by
  refine ⟨?_, ?_, ?_⟩
  · intro s p w hp hmin hsw hparse
    have hberr : buildBppUri w.provider_id
        = Except.error ("ValueError: invalid literal for int() with base 10") := by
      simp only [buildBppUri, hsw, Bool.false_eq_true, if_false, householdAgentUri, hparse]
    simp only [evaluate_offers_node, hp, hmin, hberr, isErr]
  · intro gw tx s p hp hparse
    simp only [initiate_search_node, hp, householdAgentUri, hparse, isErr]
  · intro now oid s p ctx hp hctx htype hsur hparse
    have hne : ¬ (p.agent_type = ("household")
        ∧ p.current_energy_storage_kwh < (6 / 10) * p.max_capacity_kwh) :=
      fun hh => hsur hh.2
    simp only [formulate_offer_node, Bool.false_eq_true, if_false, hp, hctx, if_neg hne,
      if_pos htype, householdAgentUri, hparse, isErr]

/-- Claim C10 witness: the theorem instantiated at the provider id
household-agent-x, whose trailing segment x is not a decimal integer. -/
theorem C10_provider_id_parse_precondition_witness :
    isErr (evaluate_offers_node c10EvalState) = true
    ∧ isErr (initiate_search_node ("http://gateway:8000") ("tx-w") c10SearchState) = true
    ∧ isErr (formulate_offer_node false 0 ("offer-x") c10SearchState) = true :=
  ⟨C10_provider_id_parse_precondition.1 c10EvalState buyerProfile badOffer rfl rfl rfl rfl,
   C10_provider_id_parse_precondition.2.1 ("http://gateway:8000") ("tx-w") c10SearchState
     badProfile rfl rfl,
   C10_provider_id_parse_precondition.2.2 0 ("offer-x") c10SearchState badProfile hholdCtx
     rfl rfl rfl (by norm_num [badProfile]) rfl⟩

/-- Characterisation of the scan: minByPriceAux b l either keeps b, in
which case b's price is a lower bound for l, or returns the element of l at
the first position whose price is strictly below b and all earlier
elements. -/
theorem minByPriceAux_spec (l : List EnergyOffer) : ∀ b : EnergyOffer,
    (minByPriceAux b l = b ∧ ∀ x ∈ l, b.price_per_kwh ≤ x.price_per_kwh)
    ∨ (∃ i w, l.get? i = some w ∧ minByPriceAux b l = w
        ∧ w.price_per_kwh < b.price_per_kwh
        ∧ (∀ x ∈ l, w.price_per_kwh ≤ x.price_per_kwh)
        ∧ (∀ j y, j < i → l.get? j = some y → w.price_per_kwh < y.price_per_kwh)) := by
  induction l with
  | nil =>
    intro b
    exact Or.inl ⟨rfl, fun x hx => absurd hx (List.not_mem_nil x)⟩
  | cons x xs ih =>
    intro b
    by_cases hx : x.price_per_kwh < b.price_per_kwh
    · have hstep : minByPriceAux b (x :: xs) = minByPriceAux x xs := by
        simp only [minByPriceAux, if_pos hx]
      rcases ih x with ⟨heq, hle⟩ | ⟨i, w, hget, heqw, hlt, hle, hfirst⟩
      · refine Or.inr ⟨0, x, rfl, by rw [hstep, heq], hx, ?_, ?_⟩
        · intro y hy
          rcases List.mem_cons.mp hy with h | h
          · subst h; exact le_refl _
          · exact hle y h
        · intro j y hj hgy
          exact absurd hj (Nat.not_lt_zero j)
      · refine Or.inr ⟨i + 1, w, hget, by rw [hstep, heqw], lt_trans hlt hx, ?_, ?_⟩
        · intro y hy
          rcases List.mem_cons.mp hy with h | h
          · subst h; exact le_of_lt hlt
          · exact hle y h
        · intro j y hj hgy
          cases j with
          | zero =>
            have hxy : x = y := by simpa using hgy
            rw [← hxy]
            exact hlt
          | succ j2 =>
            exact hfirst j2 y (Nat.lt_of_succ_lt_succ hj) hgy
    · have hstep : minByPriceAux b (x :: xs) = minByPriceAux b xs := by
        simp only [minByPriceAux, if_neg hx]
      have hxb : b.price_per_kwh ≤ x.price_per_kwh := le_of_not_lt hx
      rcases ih b with ⟨heq, hle⟩ | ⟨i, w, hget, heqw, hlt, hle, hfirst⟩
      · refine Or.inl ⟨by rw [hstep, heq], ?_⟩
        intro y hy
        rcases List.mem_cons.mp hy with h | h
        · subst h; exact hxb
        · exact hle y h
      · refine Or.inr ⟨i + 1, w, hget, by rw [hstep, heqw], hlt, ?_, ?_⟩
        · intro y hy
          rcases List.mem_cons.mp hy with h | h
          · subst h; exact le_trans (le_of_lt hlt) hxb
          · exact hle y h
        · intro j y hj hgy
          cases j with
          | zero =>
            have hxy : x = y := by simpa using hgy
            rw [← hxy]
            exact lt_of_lt_of_le hlt hxb
          | succ j2 =>
            exact hfirst j2 y (Nat.lt_of_succ_lt_succ hj) hgy

/-- The offer selected from a non-empty list is the global price minimum,
and every earlier offer in the list is strictly more expensive -- i.e. ties
on the minimal price go to the earliest offer, as Python's min does. -/
theorem minByPrice_first_global_min (l : List EnergyOffer) (w : EnergyOffer)
    (h : minByPrice l = some w) :
    ∃ i, l.get? i = some w
      ∧ (∀ x ∈ l, w.price_per_kwh ≤ x.price_per_kwh)
      ∧ (∀ j y, j < i → l.get? j = some y → w.price_per_kwh < y.price_per_kwh) := by
  cases l with
  | nil => exact absurd h (by simp [minByPrice])
  | cons o os =>
    have hw : minByPriceAux o os = w := by simpa [minByPrice] using h
    subst hw
    rcases minByPriceAux_spec os o with ⟨heq, hle⟩ | ⟨i, v, hget, heqv, hlt, hle, hfirst⟩
    · refine ⟨0, by rw [heq]; rfl, ?_, ?_⟩
      · rw [heq]
        intro y hy
        rcases List.mem_cons.mp hy with h2 | h2
        · subst h2; exact le_refl _
        · exact hle y h2
      · intro j y hj hgy
        exact absurd hj (Nat.not_lt_zero j)
    · refine ⟨i + 1, by rw [heqv]; exact hget, ?_, ?_⟩
      · rw [heqv]
        intro y hy
        rcases List.mem_cons.mp hy with h2 | h2
        · subst h2; exact le_of_lt hlt
        · exact hle y h2
      · rw [heqv]
        intro j y hj hgy
        cases j with
        | zero =>
          have hxy : o = y := by simpa using hgy
          rw [← hxy]
          exact hlt
        | succ j2 =>
          exact hfirst j2 y (Nat.lt_of_succ_lt_succ hj) hgy

/-- A well-formed provider id always yields a callback uri. -/
theorem buildBppUri_isOk {id : String} (h : providerWellFormed id = true) :
    ∃ u, buildBppUri id = Except.ok u := by
  by_cases hs : pyStartsWithUtility id = true
  · exact ⟨("http://utility_agent:8002"), by simp only [buildBppUri, if_pos hs]⟩
  · have hps : (pyIntOfString (lastDashSegment id)).isSome = true := by
      have h2 := h
      simp only [providerWellFormed, Bool.or_eq_true] at h2
      rcases h2 with h3 | h3
      · exact absurd h3 hs
      · exact h3
    obtain ⟨n, hn⟩ := Option.isSome_iff_exists.mp hps
    exact ⟨("http://household_agent_") ++ toString n ++ (":")
        ++ toString (8001 + ((n : Int) - 1) * 2),
      by simp only [buildBppUri, if_neg hs, householdAgentUri, hn]⟩

/-- Claim C3: with a bound profile, a bound context and a non-empty offer
list whose provider ids satisfy the uri precondition, evaluate_offers_node
succeeds with trigger selection_made, selecting the offer at the first
position attaining the global minimum price: it is a lower bound for every
offer, and every offer strictly before it is strictly more expensive. -/
theorem C3_evaluate_offers_selects_first_global_min
    (s : P2PAgentState) (p : AgentProfile) (ctx : BecknContext)
    (hp : s.profile = some p) (hn : s.received_offers ≠ [])
    (hctx : s.active_transaction_context = some ctx)
    (hwf : ∀ o ∈ s.received_offers, providerWellFormed o.provider_id = true) :
    ∃ w u, evaluate_offers_node s = Except.ok u
      ∧ u.selected_offer = some (some w)
      ∧ u.trigger = some (some ("selection_made"))
      ∧ (∃ i, s.received_offers.get? i = some w
          ∧ (∀ x ∈ s.received_offers, w.price_per_kwh ≤ x.price_per_kwh)
          ∧ (∀ j y, j < i → s.received_offers.get? j = some y
              → w.price_per_kwh < y.price_per_kwh)) := by
  cases hmin : minByPrice s.received_offers with
  | none => exact absurd (minByPrice_eq_none hmin) hn
  | some w =>
    obtain ⟨i, hget, hle, hfirst⟩ := minByPrice_first_global_min _ w hmin
    have hwmem : w ∈ s.received_offers := List.get?_mem hget
    obtain ⟨uri, huri⟩ := buildBppUri_isOk (hwf w hwmem)
    have heval : evaluate_offers_node s = Except.ok
        { selected_offer := some (some w),
          active_transaction_context := some (some
            { ctx with
              action := ("select")
              bpp_id := some w.provider_id
              bpp_uri := some uri }),
          trigger := some (some ("selection_made")) } := by
      simp only [evaluate_offers_node, hp, hmin, huri, hctx]
    exact ⟨w, _, heval, rfl, rfl, i, hget, hle, hfirst⟩

/-- Claim C3 witness: the theorem instantiated at the three offers priced
0.20 / 0.15 / 0.25, together with the direct computation showing that the
selected offer is exactly the 0.15 one. -/
theorem C3_evaluate_offers_selects_first_global_min_witness :
    (∃ w u, evaluate_offers_node c3State = Except.ok u
      ∧ u.selected_offer = some (some w)
      ∧ u.trigger = some (some ("selection_made"))
      ∧ (∃ i, c3State.received_offers.get? i = some w
          ∧ (∀ x ∈ c3State.received_offers, w.price_per_kwh ≤ x.price_per_kwh)
          ∧ (∀ j y, j < i → c3State.received_offers.get? j = some y
              → w.price_per_kwh < y.price_per_kwh)))
    ∧ (∃ u, evaluate_offers_node c3State = Except.ok u
        ∧ u.selected_offer = some (some c3Offer2)) := by
  constructor
  · exact C3_evaluate_offers_selects_first_global_min c3State buyerProfile hholdCtx rfl
      (by simp [c3State]) rfl (by decide)
  · have hmin : minByPrice [c3Offer1, c3Offer2, c3Offer3] = some c3Offer2 := by
      norm_num [minByPrice, minByPriceAux, c3Offer1, c3Offer2, c3Offer3]
    have huri : buildBppUri c3Offer2.provider_id
        = Except.ok ("http://household_agent_4:8007") := rfl
    have heval : evaluate_offers_node c3State = Except.ok
        { selected_offer := some (some c3Offer2),
          active_transaction_context := some (some
            { hholdCtx with
              action := ("select")
              bpp_id := some c3Offer2.provider_id
              bpp_uri := some ("http://household_agent_4:8007") }),
          trigger := some (some ("selection_made")) } := by
      simp only [evaluate_offers_node, c3State, hmin, huri]
    exact ⟨_, heval, rfl⟩
